import Mathlib

/-
Verification development for the Gen2-UHF-RFID-Reader flow graph
(gr-rfid/grc/top_block.py). The Python class top_block is embedded as a
state record: the ten GRC variables, the construction-time parameters of
the signal-processing blocks, and the stream of tap vectors pushed to the
FIR filter by fir_filter_xxx_0.set_taps. The generated getters and setters
become pure state transformers. Python floats are modelled as rationals
(every literal in the file is exactly representable) and Python int() as
truncating integer division.
-/

namespace GenTwoUHF

/-- Python int() applied to a rational value: truncation toward zero,
realised as truncating integer division of numerator by denominator. -/
def pyInt (q : ℚ) : ℤ := Int.tdiv q.num q.den

/-- State of the top_block instance after construction: the GRC variables
(blf .. ampl), the sample-rate arguments the rfid blocks were built with,
the FIR filter state, the multiply-const constant, the file paths of the
source and the two sinks, and the history of tap vectors pushed to the FIR
filter via set_taps (empty at construction; set_num_taps appends). -/
structure TopBlock where
  blf : ℚ
  adc_rate : ℚ
  tx_gain : ℚ
  samp_rate : ℚ
  rx_gain : ℚ
  num_taps : List ℚ
  freq : ℚ
  decim : ℚ
  dac_rate : ℚ
  ampl : ℚ
  gate_samp_rate : ℤ
  tag_decoder_samp_rate : ℤ
  reader_samp_rate : ℤ
  reader_dac_rate : ℤ
  fir_decim : ℚ
  fir_taps : List ℚ
  fir_pushes : List (List ℚ)
  mult_k : ℚ
  file_source_path : String
  file_sink_0_path : String
  file_sink_1_path : String
  deriving DecidableEq

/-- The variable block of top_block.__init__ followed by the block
constructions: blf = 40e3, adc_rate = 100e6/50, tx_gain = 0,
samp_rate = 32000, rx_gain = 20, num_taps = [1]*int(adc_rate/blf*0.5),
freq = 910e6, decim = 5, dac_rate = 1e6, ampl = 0.5; the rfid blocks get
int(adc_rate/decim) (the reader also int(dac_rate)), the FIR filter gets
(decim, num_taps), the multiplier gets (ampl,), and the file blocks their
literal paths. -/
def init : TopBlock :=
  let blf : ℚ := 40000
  let adc_rate : ℚ := 100000000 / 50
  let tx_gain : ℚ := 0
  let samp_rate : ℚ := 32000
  let rx_gain : ℚ := 20
  let num_taps : List ℚ := List.replicate (pyInt (adc_rate / blf * (1/2))).toNat 1
  let freq : ℚ := 910000000
  let decim : ℚ := 5
  let dac_rate : ℚ := 1000000
  let ampl : ℚ := 1/2
  { blf := blf
    adc_rate := adc_rate
    tx_gain := tx_gain
    samp_rate := samp_rate
    rx_gain := rx_gain
    num_taps := num_taps
    freq := freq
    decim := decim
    dac_rate := dac_rate
    ampl := ampl
    gate_samp_rate := pyInt (adc_rate / decim)
    tag_decoder_samp_rate := pyInt (adc_rate / decim)
    reader_samp_rate := pyInt (adc_rate / decim)
    reader_dac_rate := pyInt dac_rate
    fir_decim := decim
    fir_taps := num_taps
    fir_pushes := []
    mult_k := ampl
    file_source_path := "/home/andreas/Engineering/PartIIB/Project/repos/Hertz/gr-rfid/misc/data/file_source_test"
    file_sink_0_path := "/home/andreas/Engineering/PartIIB/Project/repos/Hertz/gr-rfid/misc/data/file_sink"
    file_sink_1_path := "/home/andreas/Engineering/PartIIB/Project/repos/Hertz/gr-rfid/misc/data/file_sink" }

/-- set_num_taps: stores num_taps and calls fir_filter_xxx_0.set_taps with
it, which both updates the filter taps and is recorded as a push. -/
def set_num_taps (v : List ℚ) (s : TopBlock) : TopBlock :=
  { s with num_taps := v, fir_taps := v, fir_pushes := s.fir_pushes ++ [v] }

/-- set_blf: stores blf, then calls
self.set_num_taps([1]*int(self.adc_rate/self.blf * 0.5)). -/
def set_blf (v : ℚ) (s : TopBlock) : TopBlock :=
  let s1 := { s with blf := v }
  set_num_taps (List.replicate (pyInt (s1.adc_rate / s1.blf * (1/2))).toNat 1) s1

/-- set_adc_rate: stores adc_rate, then calls
self.set_num_taps([1]*int(self.adc_rate/self.blf * 0.5)). -/
def set_adc_rate (v : ℚ) (s : TopBlock) : TopBlock :=
  let s1 := { s with adc_rate := v }
  set_num_taps (List.replicate (pyInt (s1.adc_rate / s1.blf * (1/2))).toNat 1) s1

/-- set_tx_gain: stores tx_gain only. -/
def set_tx_gain (v : ℚ) (s : TopBlock) : TopBlock := { s with tx_gain := v }

/-- set_samp_rate: stores samp_rate only. -/
def set_samp_rate (v : ℚ) (s : TopBlock) : TopBlock := { s with samp_rate := v }

/-- set_rx_gain: stores rx_gain only. -/
def set_rx_gain (v : ℚ) (s : TopBlock) : TopBlock := { s with rx_gain := v }

/-- set_freq: stores freq only. -/
def set_freq (v : ℚ) (s : TopBlock) : TopBlock := { s with freq := v }

/-- set_decim: stores decim only. -/
def set_decim (v : ℚ) (s : TopBlock) : TopBlock := { s with decim := v }

/-- set_dac_rate: stores dac_rate only. -/
def set_dac_rate (v : ℚ) (s : TopBlock) : TopBlock := { s with dac_rate := v }

/-- set_ampl: stores ampl, then calls
self.blocks_multiply_const_vxx_0.set_k((self.ampl, )). -/
def set_ampl (v : ℚ) (s : TopBlock) : TopBlock :=
  let s1 := { s with ampl := v }
  { s1 with mult_k := s1.ampl }

/-- get_blf returns self.blf. -/
def get_blf (s : TopBlock) : ℚ := s.blf

/-- get_adc_rate returns self.adc_rate. -/
def get_adc_rate (s : TopBlock) : ℚ := s.adc_rate

/-- get_tx_gain returns self.tx_gain. -/
def get_tx_gain (s : TopBlock) : ℚ := s.tx_gain

/-- get_samp_rate returns self.samp_rate. -/
def get_samp_rate (s : TopBlock) : ℚ := s.samp_rate

/-- get_rx_gain returns self.rx_gain. -/
def get_rx_gain (s : TopBlock) : ℚ := s.rx_gain

/-- get_num_taps returns self.num_taps. -/
def get_num_taps (s : TopBlock) : List ℚ := s.num_taps

/-- get_freq returns self.freq. -/
def get_freq (s : TopBlock) : ℚ := s.freq

/-- get_decim returns self.decim. -/
def get_decim (s : TopBlock) : ℚ := s.decim

/-- get_dac_rate returns self.dac_rate. -/
def get_dac_rate (s : TopBlock) : ℚ := s.dac_rate

/-- get_ampl returns self.ampl. -/
def get_ampl (s : TopBlock) : ℚ := s.ampl

/-- The nine blocks instantiated by top_block.__init__. -/
inductive Blk
  | blocks_file_source_0
  | blocks_file_sink_0
  | blocks_file_sink_1
  | blocks_float_to_complex_0
  | blocks_multiply_const_vxx_0
  | fir_filter_xxx_0
  | rfid_gate_0
  | rfid_tag_decoder_0
  | rfid_reader_0
  deriving DecidableEq

/-- One self.connect call: source block and port, destination block and
port. -/
structure Conn where
  src : Blk
  srcPort : ℕ
  dst : Blk
  dstPort : ℕ
  deriving DecidableEq

/-- The eight self.connect calls of top_block.__init__, in source order. -/
def connections : List Conn :=
  [ ⟨.blocks_file_source_0, 0, .fir_filter_xxx_0, 0⟩,
    ⟨.blocks_float_to_complex_0, 0, .blocks_file_sink_0, 0⟩,
    ⟨.blocks_multiply_const_vxx_0, 0, .blocks_float_to_complex_0, 0⟩,
    ⟨.fir_filter_xxx_0, 0, .rfid_gate_0, 0⟩,
    ⟨.rfid_gate_0, 0, .rfid_tag_decoder_0, 0⟩,
    ⟨.rfid_reader_0, 0, .blocks_multiply_const_vxx_0, 0⟩,
    ⟨.rfid_tag_decoder_0, 1, .blocks_file_sink_1, 0⟩,
    ⟨.rfid_tag_decoder_0, 0, .rfid_reader_0, 0⟩ ]

/-- Modelled from the spec: the rate/decimation relationship is consistent
when the effective sample rate int(adc_rate/decim) equals
backscatter_link_frequency times some positive integer samples_per_symbol.
The source performs no such check; this predicate states the spec words
for comparison. -/
def rateConsistentSpec (s : TopBlock) : Prop :=
  ∃ sps : ℕ, 0 < sps ∧ (pyInt (s.adc_rate / s.decim) : ℚ) = s.blf * sps

/-- pyInt of an integer is that integer: the cast has numerator n and
denominator 1, and truncating division by 1 is the identity. -/
theorem pyInt_intCast (n : ℤ) : pyInt (n : ℚ) = n := by
  simp [pyInt]

/-- On nonnegative rationals, pyInt (Python truncation toward zero)
coincides with the floor. -/
theorem pyInt_eq_floor (q : ℚ) (h : 0 ≤ q) : pyInt q = ⌊q⌋ := by
  rw [Rat.floor_def, pyInt]
  exact Int.tdiv_eq_ediv (Rat.num_nonneg.mpr h) (Int.natCast_nonneg q.den)

/-- The initial blf is 40000. -/
theorem init_blf : init.blf = 40000 := rfl

/-- The initial adc_rate is 100e6/50. -/
theorem init_adc_rate : init.adc_rate = 100000000 / 50 := rfl

/-- The initial decim is 5. -/
theorem init_decim : init.decim = 5 := rfl

/-- The effective sample rate of the initial configuration,
int(adc_rate/decim), evaluates to 400000. -/
theorem init_effRate : pyInt (init.adc_rate / init.decim) = 400000 := by
  have h : init.adc_rate / init.decim = ((400000 : ℤ) : ℚ) := by
    rw [init_adc_rate, init_decim]; norm_num
  rw [h, pyInt_intCast]

/-- The initial tap vector is 25 ones: int(adc_rate/blf*0.5) = 25. -/
theorem init_num_taps_eval : init.num_taps = List.replicate 25 1 := by
  show List.replicate (pyInt ((100000000 : ℚ) / 50 / 40000 * (1/2))).toNat 1 =
    List.replicate 25 1
  have h : (100000000 : ℚ) / 50 / 40000 * (1/2) = ((25 : ℤ) : ℚ) := by norm_num
  rw [h, pyInt_intCast]
  rfl

/-- C1 counterexample: set_decim does not recompute num_taps and pushes
nothing to the FIR filter. After set_decim 7 on the freshly constructed
flow graph, the decimation variable has changed but num_taps, the FIR
taps and the history of tap vectors pushed to the FIR are all untouched,
so the explicit update step the claim requires after set_decim never
happens. -/
theorem C1_counterexample :
    (set_decim 7 init).decim ≠ init.decim ∧
    (set_decim 7 init).num_taps = init.num_taps ∧
    (set_decim 7 init).fir_taps = init.fir_taps ∧
    (set_decim 7 init).fir_pushes = init.fir_pushes :=
  ⟨by decide, rfl, rfl, rfl⟩

/-- C1 (amended): set_blf and set_adc_rate recompute num_taps from the
stored adc_rate and blf and push the recomputed vector to the FIR filter
through the explicit set_num_taps step; set_decim only stores the new
decimation factor and performs no recomputation or push, since num_taps
does not depend on decim. -/
theorem C1_amended_thm :
    (∀ (v : ℚ) (s : TopBlock),
      (set_blf v s).fir_taps = List.replicate (pyInt (s.adc_rate / v * (1/2))).toNat 1 ∧
      (set_blf v s).num_taps = (set_blf v s).fir_taps ∧
      (set_blf v s).fir_pushes = s.fir_pushes ++ [(set_blf v s).fir_taps]) ∧
    (∀ (v : ℚ) (s : TopBlock),
      (set_adc_rate v s).fir_taps = List.replicate (pyInt (v / s.blf * (1/2))).toNat 1 ∧
      (set_adc_rate v s).num_taps = (set_adc_rate v s).fir_taps ∧
      (set_adc_rate v s).fir_pushes = s.fir_pushes ++ [(set_adc_rate v s).fir_taps]) ∧
    (∀ (v : ℚ) (s : TopBlock), set_decim v s = { s with decim := v }) :=
  ⟨fun _ _ => ⟨rfl, rfl, rfl⟩, fun _ _ => ⟨rfl, rfl, rfl⟩, fun _ _ => rfl⟩

/-- C1 amended-theorem witness at blf = 50000 on the initial state: the
recomputed taps are int(2000000/50000*0.5) = 20 ones and exactly this
vector is pushed to the FIR filter. -/
theorem C1_amended_witness :
    (set_blf 50000 init).fir_taps = List.replicate 20 1 ∧
    (set_blf 50000 init).fir_pushes = [List.replicate 20 1] := by
  have h := C1_amended_thm.1 50000 init
  have e : init.adc_rate / 50000 * (1/2) = ((20 : ℤ) : ℚ) := by
    rw [init_adc_rate]; norm_num
  have ht : (set_blf 50000 init).fir_taps = List.replicate 20 1 := by
    rw [h.1, e, pyInt_intCast]
    rfl
  refine ⟨ht, ?_⟩
  rw [h.2.2, ht]
  rfl

/-- C2 counterexample: the configuration set_decim 7 init differs from
init only in decim, yet both have the same tap count, refuting the claim
that two configurations differing only in decim yield different tap
counts. -/
theorem C2_counterexample :
    set_decim 7 init = { init with decim := 7 } ∧
    (set_decim 7 init).decim ≠ init.decim ∧
    (set_decim 7 init).num_taps.length = init.num_taps.length :=
  ⟨rfl, by decide, rfl⟩

/-- C2 (amended): the channel-filter tap count is determined jointly by
adc_rate and blf, namely int(adc_rate/blf*0.5), and does not depend on
decim: set_decim leaves num_taps unchanged, while init, set_blf and
set_adc_rate produce a tap vector of exactly that length. -/
theorem C2_amended_thm :
    (∀ (v : ℚ) (s : TopBlock), (set_decim v s).num_taps = s.num_taps) ∧
    init.num_taps.length = (pyInt (init.adc_rate / init.blf * (1/2))).toNat ∧
    (∀ (v : ℚ) (s : TopBlock),
      (set_blf v s).num_taps.length = (pyInt (s.adc_rate / v * (1/2))).toNat) ∧
    (∀ (v : ℚ) (s : TopBlock),
      (set_adc_rate v s).num_taps.length = (pyInt (v / s.blf * (1/2))).toNat) := by
  refine ⟨fun _ _ => rfl, ?_, fun v s => ?_, fun v s => ?_⟩
  · rw [init_num_taps_eval]
    have h : init.adc_rate / init.blf * (1/2) = ((25 : ℤ) : ℚ) := by
      rw [init_adc_rate, init_blf]; norm_num
    rw [h, pyInt_intCast]
    rfl
  · simp [set_blf, set_num_taps]
  · simp [set_adc_rate, set_num_taps]

/-- C2 amended-theorem witness: set_decim 7 leaves num_taps of the
initial state unchanged, and the initial tap count is 25. -/
theorem C2_amended_witness :
    (set_decim 7 init).num_taps = init.num_taps ∧
    init.num_taps.length = 25 := by
  refine ⟨C2_amended_thm.1 7 init, ?_⟩
  rw [init_num_taps_eval]
  rfl

/-- C3: the Gate, TagDecoder and Reader blocks are each constructed with
sample rate int(adc_rate/decim); with the shipped defaults this is
400000, which equals blf times samples_per_symbol for
samples_per_symbol = 10 at blf = 40e3. -/
theorem C3_thm :
    init.gate_samp_rate = pyInt (init.adc_rate / init.decim) ∧
    init.tag_decoder_samp_rate = pyInt (init.adc_rate / init.decim) ∧
    init.reader_samp_rate = pyInt (init.adc_rate / init.decim) ∧
    init.gate_samp_rate = 400000 ∧
    (init.gate_samp_rate : ℚ) = init.blf * 10 := by
  refine ⟨rfl, rfl, rfl, init_effRate, ?_⟩
  have h : init.gate_samp_rate = 400000 := init_effRate
  rw [h, init_blf]
  norm_num

/-- C4: the core is wired one direction: Gate port 0 feeds TagDecoder,
TagDecoder port 0 feeds Reader, no connection goes from Reader back into
Gate or TagDecoder, and Reader's output leaves through the multiplier,
the float-to-complex converter and the transmit-side file sink. -/
theorem C4_thm :
    (⟨.rfid_gate_0, 0, .rfid_tag_decoder_0, 0⟩ : Conn) ∈ connections ∧
    (⟨.rfid_tag_decoder_0, 0, .rfid_reader_0, 0⟩ : Conn) ∈ connections ∧
    (⟨.rfid_reader_0, 0, .blocks_multiply_const_vxx_0, 0⟩ : Conn) ∈ connections ∧
    (⟨.blocks_multiply_const_vxx_0, 0, .blocks_float_to_complex_0, 0⟩ : Conn) ∈ connections ∧
    (⟨.blocks_float_to_complex_0, 0, .blocks_file_sink_0, 0⟩ : Conn) ∈ connections ∧
    connections.all
      (fun c => !(c.src == Blk.rfid_reader_0 &&
        (c.dst == Blk.rfid_gate_0 || c.dst == Blk.rfid_tag_decoder_0))) = true := by
  decide

/-- C5: the file source feeds the decimating FIR channel filter, which
feeds the Gate; the Reader's command waveform reaches file sink 0 through
the amplitude scaler and the float-to-complex converter; the TagDecoder's
secondary output (port 1) terminates in file sink 1. -/
theorem C5_thm :
    (⟨.blocks_file_source_0, 0, .fir_filter_xxx_0, 0⟩ : Conn) ∈ connections ∧
    (⟨.fir_filter_xxx_0, 0, .rfid_gate_0, 0⟩ : Conn) ∈ connections ∧
    (⟨.rfid_reader_0, 0, .blocks_multiply_const_vxx_0, 0⟩ : Conn) ∈ connections ∧
    (⟨.blocks_multiply_const_vxx_0, 0, .blocks_float_to_complex_0, 0⟩ : Conn) ∈ connections ∧
    (⟨.blocks_float_to_complex_0, 0, .blocks_file_sink_0, 0⟩ : Conn) ∈ connections ∧
    (⟨.rfid_tag_decoder_0, 1, .blocks_file_sink_1, 0⟩ : Conn) ∈ connections := by
  decide

/-- C6: the multiplier sitting between Reader and the transmit-side sink
carries the constant ampl (so at construction mult_k = ampl), and every
call of set_ampl a sets both the stored ampl and the multiplier constant
to a. -/
theorem C6_thm :
    init.mult_k = init.ampl ∧
    (⟨.rfid_reader_0, 0, .blocks_multiply_const_vxx_0, 0⟩ : Conn) ∈ connections ∧
    (⟨.blocks_multiply_const_vxx_0, 0, .blocks_float_to_complex_0, 0⟩ : Conn) ∈ connections ∧
    (⟨.blocks_float_to_complex_0, 0, .blocks_file_sink_0, 0⟩ : Conn) ∈ connections ∧
    ∀ (a : ℚ) (s : TopBlock), (set_ampl a s).ampl = a ∧ (set_ampl a s).mult_k = a :=
  ⟨rfl, by decide, by decide, by decide, fun _ _ => ⟨rfl, rfl⟩⟩

/-- C6 witness at a = 3/4 on the initial state. -/
theorem C6_witness :
    (set_ampl (3/4) init).ampl = 3/4 ∧ (set_ampl (3/4) init).mult_k = 3/4 :=
  C6_thm.2.2.2.2 (3/4) init

/-- C7 counterexample: after set_decim 7 the rate/decimation relationship
is inconsistent (int(adc_rate/decim) = 285714 is not blf times any
positive integer), yet nothing fails: set_decim is total, the flow graph
blocks keep the rates they were built with and the filter is untouched,
so the inconsistency is neither detected nor fatal. -/
theorem C7_counterexample :
    ¬ rateConsistentSpec (set_decim 7 init) ∧
    (set_decim 7 init).gate_samp_rate = 400000 ∧
    (set_decim 7 init).fir_taps = init.fir_taps := by
  refine ⟨?_, init_effRate, rfl⟩
  rintro ⟨sps, hpos, heq⟩
  have e1 : (set_decim 7 init).adc_rate / (set_decim 7 init).decim =
      ((2000000 : ℤ) : ℚ) / ((7 : ℕ) : ℚ) := by
    show (100000000 : ℚ) / 50 / 7 = ((2000000 : ℤ) : ℚ) / ((7 : ℕ) : ℚ)
    norm_num
  rw [e1, pyInt_eq_floor _ (by positivity), Rat.floor_intCast_div_natCast] at heq
  have e2 : (2000000 : ℤ) / ((7 : ℕ) : ℤ) = 285714 := by decide
  rw [e2] at heq
  have e3 : (set_decim 7 init).blf = 40000 := rfl
  rw [e3] at heq
  have h2 : (285714 : ℕ) = 40000 * sps := by exact_mod_cast heq
  omega

/-- C7 (amended): the code performs no rate/decimation validation and has
no fatal configuration condition: construction is unconditional (the
shipped defaults happen to satisfy the consistency relation, with
samples_per_symbol = 10) and set_decim accepts any value, changing only
the stored decim and never failing. -/
theorem C7_amended_thm :
    rateConsistentSpec init ∧
    ∀ (v : ℚ) (s : TopBlock), set_decim v s = { s with decim := v } := by
  refine ⟨⟨10, by norm_num, ?_⟩, fun _ _ => rfl⟩
  rw [init_effRate, init_blf]
  norm_num

/-- C7 amended-theorem witness: set_decim 3 on the initial state changes
only decim. -/
theorem C7_amended_witness :
    set_decim 3 init = { init with decim := 3 } :=
  C7_amended_thm.2 3 init

/-- C8: the setters for freq, tx_gain, rx_gain, samp_rate, dac_rate and
decim each perform a single field update: every other configuration
variable and every block parameter (taps, pushes, multiplier constant,
block rates, paths) is unchanged. -/
theorem C8_thm :
    ∀ (v : ℚ) (s : TopBlock),
      set_freq v s = { s with freq := v } ∧
      set_tx_gain v s = { s with tx_gain := v } ∧
      set_rx_gain v s = { s with rx_gain := v } ∧
      set_samp_rate v s = { s with samp_rate := v } ∧
      set_dac_rate v s = { s with dac_rate := v } ∧
      set_decim v s = { s with decim := v } :=
  fun _ _ => ⟨rfl, rfl, rfl, rfl, rfl, rfl⟩

/-- C8 witness at v = 900000000 on the initial state. -/
theorem C8_witness :
    set_freq 900000000 init = { init with freq := 900000000 } :=
  (C8_thm 900000000 init).1

/-- C9: every setter/getter pair round-trips: get_X after set_X v returns
exactly v, for all ten configuration variables. -/
theorem C9_thm :
    ∀ (v : ℚ) (t : List ℚ) (s : TopBlock),
      get_blf (set_blf v s) = v ∧
      get_adc_rate (set_adc_rate v s) = v ∧
      get_tx_gain (set_tx_gain v s) = v ∧
      get_samp_rate (set_samp_rate v s) = v ∧
      get_rx_gain (set_rx_gain v s) = v ∧
      get_num_taps (set_num_taps t s) = t ∧
      get_freq (set_freq v s) = v ∧
      get_decim (set_decim v s) = v ∧
      get_dac_rate (set_dac_rate v s) = v ∧
      get_ampl (set_ampl v s) = v :=
  fun _ _ _ => ⟨rfl, rfl, rfl, rfl, rfl, rfl, rfl, rfl, rfl, rfl⟩

/-- C9 witness at v = 12345, t = [], on the initial state. -/
theorem C9_witness : get_blf (set_blf 12345 init) = 12345 :=
  (C9_thm 12345 [] init).1

/-- C10: both output file sinks are constructed with the same path, the
single file .../misc/data/file_sink, so the simulated transmitter stream
and the diagnostic capture stream share one file. -/
theorem C10_thm :
    init.file_sink_0_path = init.file_sink_1_path ∧
    init.file_sink_0_path =
      "/home/andreas/Engineering/PartIIB/Project/repos/Hertz/gr-rfid/misc/data/file_sink" :=
  ⟨rfl, rfl⟩

end GenTwoUHF
